import Mathlib

/-!
Verification of the client-side authentication state machine and the
login-attempt throttle of the employee attendance application.

The embedding follows the source:
  - `src/src/contexts/AuthContext.tsx` (the version the claim line numbers
    refer to): `login`, `logout`, the restore effect, `loadCustomAccounts`;
  - the login screen component (`onSubmit`, `isLockedOut`, the lockout
    expiry interval effect).

JavaScript strings are modelled as Lean `String`; the string methods
`trim()` and `toLowerCase()` used by the source are modelled by
kernel-computable functions over the underlying character list.
The value stored in `localStorage` under the session key is modelled
abstractly: `StorageVal.ser u` stands for the string `JSON.stringify(u)`
(which is non-empty and parses back to `u`), `StorageVal.empty` stands for
the empty string (which is falsy in JavaScript), and `StorageVal.corrupt`
stands for any non-empty content on which `JSON.parse` throws.
-/

/-- Model of `String.prototype.toLowerCase()` (ASCII case mapping). -/
def jsToLower (s : String) : String :=
  ⟨s.data.map Char.toLower⟩

/-- Model of `String.prototype.trim()`: removes whitespace from both ends. -/
def jsTrim (s : String) : String :=
  ⟨((s.data.dropWhile Char.isWhitespace).reverse.dropWhile Char.isWhitespace).reverse⟩

/-- `employeeId.trim().toLowerCase()` as performed by `login` in
`AuthContext.tsx`. -/
def normalizeId (s : String) : String :=
  jsToLower (jsTrim s)

/-- The `role` field of an account: admin or employee. -/
inductive Role
  | admin
  | employee
deriving DecidableEq, Repr

/-- The `User` type of `AuthContext.tsx` (the in-memory authenticated user).
The optional `firstName` and `lastName` fields default to absent, matching
the object literal built by `login`, which omits them. -/
structure User where
  id : String
  employeeId : String
  name : String
  firstName : Option String := none
  lastName : Option String := none
  role : Role
deriving DecidableEq, Repr

/-- A row of the `employees` table as read by `login` (only the columns the
auth code uses). -/
structure EmployeeRow where
  id : String
  employee_id : String
  full_name : String
  role : Role
  password : String
deriving DecidableEq, Repr

/-- Abstract model of the string stored under `STORAGE_KEY` in
`localStorage`: a valid serialization of a user, the empty string, or
non-empty malformed content on which `JSON.parse` throws. -/
inductive StorageVal
  | ser (u : User)
  | empty
  | corrupt
deriving DecidableEq, Repr

/-- State of the auth state machine: the React `user` state and the
`localStorage` slot for `STORAGE_KEY` (`none` when the key is absent). -/
structure AuthState where
  user : Option User
  storage : Option StorageVal
deriving DecidableEq, Repr

/-- The state at mount: `useState<User | null>(null)` and (for a fresh
profile) no stored session. -/
def authInit : AuthState :=
  { user := none, storage := none }

/-- Outcome of the single-row Supabase query by normalized identifier
inside `login`: a row, the no-row error, or an unexpected fault (the
thrown exception caught by the surrounding try/catch). -/
inductive LookupOutcome
  | found (row : EmployeeRow)
  | missing
  | fault
deriving DecidableEq, Repr

/-- The `{ success: boolean; error?: string }` result type of `login`. -/
structure LoginResult where
  success : Bool
  error : Option String := none
deriving DecidableEq, Repr

/-- A fault-free credential store backed by a list of rows: the outcome of
the single-row query for a given normalized identifier. -/
def lookupOf (db : List EmployeeRow) : String → LookupOutcome :=
  fun nid =>
    match db.find? (fun r => r.employee_id == nid) with
    | some r => LookupOutcome.found r
    | none => LookupOutcome.missing

/-- `login` from `AuthContext.tsx`: normalizes the identifier, queries the
credential store, and on success sets the user state and writes the
serialized user to storage before returning `{ success: true }`. The
try/catch around the body is modelled by the `fault` branch; the function
is total, so no failure escapes to the caller. -/
def login (st : AuthState) (lookup : String → LookupOutcome)
    (employeeId password : String) : AuthState × LoginResult :=
  let normalizedId := normalizeId employeeId
  match lookup normalizedId with
  | LookupOutcome.fault =>
      (st, { success := false, error := some "Invalid credentials. Please try again." })
  | LookupOutcome.missing =>
      (st, { success := false,
             error := some "Employee ID not found. Please check with your administrator." })
  | LookupOutcome.found data =>
      if data.password ≠ password then
        (st, { success := false, error := some "Incorrect password. Please try again." })
      else
        let authenticatedUser : User :=
          { id := data.id, employeeId := data.employee_id,
            name := data.full_name, role := data.role }
        ({ user := some authenticatedUser,
           storage := some (StorageVal.ser authenticatedUser) },
         { success := true, error := none })

/-- `logout` from `AuthContext.tsx`: `setUser(null)` and
`localStorage.removeItem(STORAGE_KEY)`, unconditionally. -/
def logout (_st : AuthState) : AuthState :=
  { user := none, storage := none }

/-- The restore effect of `AuthProvider`: reads the stored value; a truthy
value is parsed (`setUser(JSON.parse(storedUser))`); if the parse throws,
the catch removes the stored value. A falsy value (absent key or empty
string) is not parsed and not removed. -/
def restore (st : AuthState) : AuthState :=
  match st.storage with
  | none => st
  | some StorageVal.empty => st
  | some (StorageVal.ser u) => { st with user := some u }
  | some StorageVal.corrupt => { st with storage := none }

/-- `user` as exposed through the context: a pure read of the state. -/
def currentUser (st : AuthState) : Option User :=
  st.user

/-- Whether the storage slot holds a serialized session record. -/
def holdsSession : Option StorageVal → Bool
  | some (StorageVal.ser _) => true
  | _ => false

/-- The in-memory user is present exactly when storage holds a session
record. -/
def sessionInv (st : AuthState) : Prop :=
  st.user.isSome = holdsSession st.storage

/-- The concrete admin account of the demo data (`employee_id` stored in
lowercase, password `Admin@123`). -/
def adminRow : EmployeeRow :=
  { id := "1", employee_id := "admin", full_name := "Admin User",
    role := Role.admin, password := "Admin@123" }

/-- State owned by the login screen component: `failedAttempts`,
`lockoutUntil` (a millisecond timestamp when set) and `authError`. -/
structure ThrottleState where
  failedAttempts : Nat
  lockoutUntil : Option Nat
  authError : String
deriving DecidableEq, Repr

/-- Initial component state: counter 0, no lockout timestamp, empty error
message, matching the useState initializers of the component. -/
def throttleInit : ThrottleState :=
  { failedAttempts := 0, lockoutUntil := none, authError := "" }

/-- `const lockoutDurationMs = 30 * 1000`. -/
def lockoutDurationMs : Nat := 30 * 1000

/-- The `isLockedOut` memo: `lockoutUntil` is set and strictly in the
future (`lockoutUntil.getTime() > Date.now()`). -/
def isLockedOut (st : ThrottleState) (now : Nat) : Bool :=
  match st.lockoutUntil with
  | none => false
  | some t => now < t

/-- The throttle-relevant effect of `onSubmit`, given the current time and
the result returned by `login`: a locked-out submission returns before the
login call (the carried result is ignored); a success resets the counter
and the lockout; a failure increments the counter and, when the new count
reaches 5, sets `lockoutUntil = now + lockoutDurationMs`. -/
def onSubmit (st : ThrottleState) (now : Nat) (result : LoginResult) :
    ThrottleState :=
  if isLockedOut st now then
    { st with authError := "Too many failed attempts. Please wait a moment before trying again." }
  else if result.success then
    { st with failedAttempts := 0, lockoutUntil := none, authError := "" }
  else
    let nextAttempts := st.failedAttempts + 1
    if nextAttempts ≥ 5 then
      { failedAttempts := nextAttempts,
        lockoutUntil := some (now + lockoutDurationMs),
        authError := "Account temporarily locked due to multiple failed attempts. Please wait 30 seconds." }
    else
      { st with
        failedAttempts := nextAttempts,
        authError :=
          match result.error with
          | some e => e
          | none => "Invalid credentials. Please try again." }

/-- One firing of the lockout expiry interval: when a lockout timestamp is
set and has elapsed (`lockoutUntil.getTime() <= Date.now()`), clears the
lockout and resets the counter; otherwise does nothing. -/
def tick (st : ThrottleState) (now : Nat) : ThrottleState :=
  match st.lockoutUntil with
  | none => st
  | some t =>
      if t ≤ now then { st with lockoutUntil := none, failedAttempts := 0 }
      else st

/-- Events that mutate the throttle state during the mounted lifetime of
the login screen. -/
inductive ThrottleEvent
  | submit (now : Nat) (result : LoginResult)
  | tick (now : Nat)
deriving DecidableEq, Repr

/-- Apply one event to the throttle state. -/
def throttleStep (st : ThrottleState) : ThrottleEvent → ThrottleState
  | ThrottleEvent.submit now result => onSubmit st now result
  | ThrottleEvent.tick now => tick st now

/-- Run a sequence of events from the initial component state. -/
def throttleRun (evs : List ThrottleEvent) : ThrottleState :=
  evs.foldl throttleStep throttleInit

/-- A throttle state is reachable when some event sequence produces it from
the initial state. -/
def throttleReachable (st : ThrottleState) : Prop :=
  ∃ evs : List ThrottleEvent, throttleRun evs = st

/-- Run a sequence of failed submissions (each given by its time and the
optional error message of the login result) from a given state. -/
def runFails (st : ThrottleState) (fails : List (Nat × Option String)) :
    ThrottleState :=
  fails.foldl (fun s p => onSubmit s p.1 { success := false, error := p.2 }) st

/-- Outcome of `JSON.parse` on the custom-accounts storage content: a
throw, an array (its elements, read back as accounts), or a value that is
not an array. -/
inductive JsonParseResult
  | failure
  | array (xs : List EmployeeRow)
  | nonArray

/-- `loadCustomAccounts` from `AuthContext.tsx`, as a function of its
environment: whether a `window` object exists, the stored value under
`CUSTOM_ACCOUNTS_STORAGE_KEY` (`none` when absent), and the behaviour of
`JSON.parse` on stored strings. A falsy stored value (absent or the empty
string) yields `[]`; a parse throw is caught and yields `[]`; a non-array
parse yields `[]`; an array is returned as is. -/
def loadCustomAccounts (hasWindow : Bool) (stored : Option String)
    (parse : String → JsonParseResult) : List EmployeeRow :=
  if hasWindow = false then []
  else
    match stored with
    | none => []
    | some s =>
        if s = "" then []
        else
          match parse s with
          | JsonParseResult.failure => []
          | JsonParseResult.nonArray => []
          | JsonParseResult.array xs => xs

/-- A parse behaviour that always throws, for concrete instantiation. -/
def parseAlwaysThrows : String → JsonParseResult :=
  fun _ => JsonParseResult.failure

/-- A parse behaviour that always yields a non-array JSON value, for
concrete instantiation. -/
def parseAlwaysObject : String → JsonParseResult :=
  fun _ => JsonParseResult.nonArray

/-- Claim C7: for every prior state (including already logged out),
`logout` clears the session key, transitions to Anonymous, and never
errors (it is a total function); afterwards storage contains no session
key. -/
theorem logout_always_clears_storage (st : AuthState) :
    logout st = { user := none, storage := none } ∧
    currentUser (logout st) = none ∧
    (logout st).storage = none :=
  ⟨rfl, rfl, rfl⟩

/-- Claim C10: `loadCustomAccounts` is total (it returns a list on every
environment, by its type and totality in Lean) and returns the empty list
when no window exists, when the key is absent, when the stored value is
not valid JSON (the parse throws), and when the parsed JSON is not an
array. -/
theorem loadCustomAccounts_empty_on_bad_input
    (stored : Option String) (parse : String → JsonParseResult)
    (s : String) :
    loadCustomAccounts false stored parse = [] ∧
    loadCustomAccounts true none parse = [] ∧
    (parse s = JsonParseResult.failure →
      loadCustomAccounts true (some s) parse = []) ∧
    (parse s = JsonParseResult.nonArray →
      loadCustomAccounts true (some s) parse = []) := by
  refine ⟨rfl, rfl, fun h => ?_, fun h => ?_⟩ <;>
    by_cases hs : s = "" <;> simp [loadCustomAccounts, hs, h]

/-- Concrete instantiation of `loadCustomAccounts_empty_on_bad_input`:
a stored value on which the parse throws, and one that parses to a
non-array value, both yield the empty list. -/
theorem loadCustomAccounts_empty_on_bad_input_witness :
    loadCustomAccounts true (some "oops") parseAlwaysThrows = [] ∧
    loadCustomAccounts true (some "42") parseAlwaysObject = [] :=
  ⟨(loadCustomAccounts_empty_on_bad_input (some "oops") parseAlwaysThrows
      "oops").2.2.1 rfl,
   (loadCustomAccounts_empty_on_bad_input (some "42") parseAlwaysObject
      "42").2.2.2 rfl⟩

/-- Claim C4, counterexample: the empty string is a malformed stored
session value (parsing it would throw), yet the restore effect leaves it
in storage: the truthiness guard on the stored value is false for the
empty string, so neither the parse nor the removal runs, and storage is
not empty afterwards. -/
theorem restore_keeps_empty_string_value :
    restore { user := none, storage := some StorageVal.empty } =
      { user := none, storage := some StorageVal.empty } ∧
    (restore { user := none, storage := some StorageVal.empty }).storage ≠
      none :=
  ⟨rfl, by decide⟩

/-- Claim C4 (amended): the restore effect never raises (it is a total
function) and reports Anonymous on every malformed stored value when no
user was set; for every non-empty malformed stored value it deletes the
value, leaving storage empty; the empty-string stored value, being falsy,
is left in storage while the user still comes back Anonymous. -/
theorem restore_corrupt_self_heals (st : AuthState) (hu : st.user = none) :
    (st.storage = some StorageVal.corrupt →
      restore st = { user := none, storage := none } ∧
      currentUser (restore st) = none ∧
      (restore st).storage = none) ∧
    (st.storage = some StorageVal.empty →
      currentUser (restore st) = none ∧
      (restore st).storage = some StorageVal.empty) := by
  obtain ⟨u, s⟩ := st
  change u = none at hu
  subst hu
  refine ⟨fun hc => ?_, fun he => ?_⟩
  · change s = some StorageVal.corrupt at hc
    subst hc
    exact ⟨rfl, rfl, rfl⟩
  · change s = some StorageVal.empty at he
    subst he
    exact ⟨rfl, rfl⟩

/-- Concrete instantiation of `restore_corrupt_self_heals`: restoring from
a corrupt stored value on a fresh mount deletes the value and stays
Anonymous. -/
theorem restore_corrupt_self_heals_witness :
    restore { user := none, storage := some StorageVal.corrupt } =
      { user := none, storage := none } :=
  ((restore_corrupt_self_heals
      { user := none, storage := some StorageVal.corrupt } rfl).1 rfl).1

/-- Claim C3, counterexample: when the credential store has no record for
the normalized identifier, the error message is the full string used by
the source, which differs from the message "Employee ID not found." stated
by the claim. -/
theorem login_not_found_message_cex :
    (login authInit (fun _ => LookupOutcome.missing) "ghost" "pw").2 =
      { success := false,
        error := some "Employee ID not found. Please check with your administrator." } ∧
    (login authInit (fun _ => LookupOutcome.missing) "ghost" "pw").2.error ≠
      some "Employee ID not found." :=
  ⟨rfl, by decide⟩

/-- Claim C3 (amended): for every identifier and password, `login` returns
a structured result and never raises (it is a total function): a missing
record yields failure with message "Employee ID not found. Please check
with your administrator."; an existing record with a different password
yields failure with message "Incorrect password. Please try again."; an
unexpected credential-store fault is caught and yields the generic failure
"Invalid credentials. Please try again."; and every failure carries an
error message. -/
theorem login_structured_errors (st : AuthState)
    (lookup : String → LookupOutcome) (eid pw : String) :
    (lookup (normalizeId eid) = LookupOutcome.missing →
      login st lookup eid pw =
        (st, { success := false,
               error := some "Employee ID not found. Please check with your administrator." })) ∧
    (∀ r, lookup (normalizeId eid) = LookupOutcome.found r →
      r.password ≠ pw →
      login st lookup eid pw =
        (st, { success := false,
               error := some "Incorrect password. Please try again." })) ∧
    (lookup (normalizeId eid) = LookupOutcome.fault →
      login st lookup eid pw =
        (st, { success := false,
               error := some "Invalid credentials. Please try again." })) ∧
    ((login st lookup eid pw).2.success = false →
      ((login st lookup eid pw).2.error).isSome = true) := by
  refine ⟨fun hm => ?_, fun r hf hne => ?_, fun hflt => ?_, fun hfail => ?_⟩
  · simp [login, hm]
  · simp [login, hf, hne]
  · simp [login, hflt]
  · cases hl : lookup (normalizeId eid) with
    | fault => simp [login, hl]
    | missing => simp [login, hl]
    | found r =>
        by_cases hp : r.password = pw
        · simp [login, hl, hp] at hfail
        · simp [login, hl, hp]

/-- Concrete instantiation of `login_structured_errors`: an empty store
yields the not-found failure, and a wrong password against the stored
admin row yields the incorrect-password failure. -/
theorem login_structured_errors_witness :
    login authInit (lookupOf []) "ghost" "pw" =
      (authInit,
       { success := false,
         error := some "Employee ID not found. Please check with your administrator." }) ∧
    login authInit (lookupOf [adminRow]) "admin" "wrongPW" =
      (authInit,
       { success := false,
         error := some "Incorrect password. Please try again." }) :=
  ⟨(login_structured_errors authInit (lookupOf []) "ghost" "pw").1 rfl,
   (login_structured_errors authInit (lookupOf [adminRow]) "admin"
      "wrongPW").2.1 adminRow (by decide) (by decide)⟩

/-- Claim C8: `login` depends on the identifier only through trimming and
lower-casing, so identifiers equal up to normalization behave identically
(case-insensitive identifier); the password comparison is exact
(case-sensitive); the login with identifier "ADMIN" (even with surrounding
whitespace) and the matching password for the stored identifier "admin"
succeeds, while a wrong-case password fails. -/
theorem login_case_insensitive_identifier (st : AuthState)
    (lookup : String → LookupOutcome) (a b pw : String)
    (h : normalizeId a = normalizeId b) :
    login st lookup a pw = login st lookup b pw ∧
    (login authInit (lookupOf [adminRow]) "ADMIN" "Admin@123").2.success =
      true ∧
    (login authInit (lookupOf [adminRow]) "  ADMIN  " "Admin@123").2.success =
      true ∧
    (login authInit (lookupOf [adminRow]) "admin" "admin@123").2 =
      { success := false,
        error := some "Incorrect password. Please try again." } := by
  refine ⟨?_, by decide, by decide, by decide⟩
  simp only [login, h]

/-- Concrete instantiation of `login_case_insensitive_identifier`: the
upper-case and lower-case identifier produce the same login outcome, and
the upper-case one succeeds. -/
theorem login_case_insensitive_identifier_witness :
    login authInit (lookupOf [adminRow]) "ADMIN" "Admin@123" =
      login authInit (lookupOf [adminRow]) "admin" "Admin@123" ∧
    (login authInit (lookupOf [adminRow]) "ADMIN" "Admin@123").2.success =
      true :=
  ⟨(login_case_insensitive_identifier authInit (lookupOf [adminRow])
      "ADMIN" "admin" "Admin@123" (by decide)).1,
   (login_case_insensitive_identifier authInit (lookupOf [adminRow])
      "ADMIN" "admin" "Admin@123" (by decide)).2.1⟩

/-- Claim C2: every successful `login` writes a serialized user to
storage, and restoring on a fresh mount from exactly that stored value
yields a current user equal to the one `login` stored; since the stored
value is the serialization of that same user, the round trip through the
serialized storage value is exact. -/
theorem login_restore_round_trip (st : AuthState)
    (lookup : String → LookupOutcome) (eid pw : String)
    (hs : (login st lookup eid pw).2.success = true) :
    ∃ u : User,
      (login st lookup eid pw).1.user = some u ∧
      (login st lookup eid pw).1.storage = some (StorageVal.ser u) ∧
      currentUser
        (restore { user := none,
                   storage := (login st lookup eid pw).1.storage }) =
        some u := by
  cases hl : lookup (normalizeId eid) with
  | fault => simp [login, hl] at hs
  | missing => simp [login, hl] at hs
  | found r =>
      by_cases hp : r.password = pw
      · refine ⟨{ id := r.id, employeeId := r.employee_id,
                  name := r.full_name, role := r.role }, ?_, ?_, ?_⟩ <;>
          simp [login, hl, hp, restore, currentUser]
      · simp [login, hl, hp] at hs

/-- Concrete instantiation of `login_restore_round_trip`: a successful
admin login round-trips through storage. -/
theorem login_restore_round_trip_witness :
    ∃ u : User,
      (login authInit (lookupOf [adminRow]) "admin" "Admin@123").1.user =
        some u ∧
      (login authInit (lookupOf [adminRow]) "admin" "Admin@123").1.storage =
        some (StorageVal.ser u) ∧
      currentUser
        (restore { user := none,
                   storage := (login authInit (lookupOf [adminRow])
                     "admin" "Admin@123").1.storage }) = some u :=
  login_restore_round_trip authInit (lookupOf [adminRow]) "admin"
    "Admin@123" (by decide)

/-- Claim C5: no auth transition leaves memory and storage inconsistent:
a successful login has written the authenticated user to storage by the
time it returns success; logout has cleared storage by the time it
returns; and along any operation sequence the user is present exactly when
storage holds a session record (login and logout preserve or establish the
invariant, and the restore effect establishes it from the mount state,
where the user is not yet set). -/
theorem auth_storage_consistency (st : AuthState)
    (lookup : String → LookupOutcome) (eid pw : String) :
    ((login st lookup eid pw).2.success = true →
      ∃ u : User,
        (login st lookup eid pw).1.user = some u ∧
        (login st lookup eid pw).1.storage = some (StorageVal.ser u)) ∧
    (logout st).storage = none ∧
    (sessionInv st → sessionInv (login st lookup eid pw).1) ∧
    sessionInv (logout st) ∧
    (st.user = none → sessionInv (restore st)) := by
  refine ⟨fun hs => ?_, rfl, fun hinv => ?_, ?_, fun hu => ?_⟩
  · cases hl : lookup (normalizeId eid) with
    | fault => simp [login, hl] at hs
    | missing => simp [login, hl] at hs
    | found r =>
        by_cases hp : r.password = pw
        · exact ⟨{ id := r.id, employeeId := r.employee_id,
                   name := r.full_name, role := r.role },
                 by simp [login, hl, hp], by simp [login, hl, hp]⟩
        · simp [login, hl, hp] at hs
  · cases hl : lookup (normalizeId eid) with
    | fault => simpa [login, hl] using hinv
    | missing => simpa [login, hl] using hinv
    | found r =>
        by_cases hp : r.password = pw
        · simp [login, hl, hp, sessionInv, holdsSession]
        · simpa [login, hl, hp] using hinv
  · simp [sessionInv, logout, holdsSession]
  · obtain ⟨u, s⟩ := st
    change u = none at hu
    subst hu
    cases s with
    | none => simp [restore, sessionInv, holdsSession]
    | some v =>
        cases v <;> simp [restore, sessionInv, holdsSession]

/-- Concrete instantiation of `auth_storage_consistency`: a successful
admin login leaves user and storage in agreement, and the mount-time
restore establishes the invariant on a fresh state. -/
theorem auth_storage_consistency_witness :
    (∃ u : User,
      (login authInit (lookupOf [adminRow]) "admin" "Admin@123").1.user =
        some u ∧
      (login authInit (lookupOf [adminRow]) "admin" "Admin@123").1.storage =
        some (StorageVal.ser u)) ∧
    sessionInv (login authInit (lookupOf [adminRow]) "admin"
      "Admin@123").1 ∧
    sessionInv (restore authInit) :=
  ⟨(auth_storage_consistency authInit (lookupOf [adminRow]) "admin"
      "Admin@123").1 (by decide),
   (auth_storage_consistency authInit (lookupOf [adminRow]) "admin"
      "Admin@123").2.2.1 rfl,
   (auth_storage_consistency authInit (lookupOf [adminRow]) "admin"
      "Admin@123").2.2.2.2 rfl⟩

/-- Claim C6: whenever a submission goes through (the screen is not locked
out, so `login` actually runs) and the login succeeds, the failure counter
is reset to 0 and the lockout timestamp is cleared, for every prior value
of the counter and of the lockout timestamp; hence the screen is not
locked out at any later time. -/
theorem success_resets_throttle (st : ThrottleState) (now t : Nat)
    (err : Option String) (h : isLockedOut st now = false) :
    (onSubmit st now { success := true, error := err }).failedAttempts =
      0 ∧
    (onSubmit st now { success := true, error := err }).lockoutUntil =
      none ∧
    isLockedOut (onSubmit st now { success := true, error := err }) t =
      false := by
  have hsub : onSubmit st now { success := true, error := err } =
      { failedAttempts := 0, lockoutUntil := none, authError := "" } := by
    unfold onSubmit
    rw [h]
    rfl
  rw [hsub]
  exact ⟨rfl, rfl, rfl⟩

/-- Concrete instantiation of `success_resets_throttle`: with 3 prior
failures and an expired lockout timestamp still recorded, a successful
login resets the counter and clears the lockout. -/
theorem success_resets_throttle_witness :
    (onSubmit { failedAttempts := 3, lockoutUntil := some 100,
                authError := "" } 200
       { success := true, error := none }).failedAttempts = 0 ∧
    (onSubmit { failedAttempts := 3, lockoutUntil := some 100,
                authError := "" } 200
       { success := true, error := none }).lockoutUntil = none :=
  ⟨(success_resets_throttle
      { failedAttempts := 3, lockoutUntil := some 100, authError := "" }
      200 999 none (by decide)).1,
   (success_resets_throttle
      { failedAttempts := 3, lockoutUntil := some 100, authError := "" }
      200 999 none (by decide)).2.1⟩

/-- A submission while locked out returns before calling `login`, changing
only the error message. -/
theorem onSubmit_locked (st : ThrottleState) (now : Nat)
    (result : LoginResult) (h : isLockedOut st now = true) :
    onSubmit st now result =
      { st with authError :=
          "Too many failed attempts. Please wait a moment before trying again." } := by
  unfold onSubmit
  rw [h]
  rfl

/-- A submission that goes through and succeeds resets the counter, the
lockout timestamp and the error message. -/
theorem onSubmit_success (st : ThrottleState) (now : Nat)
    (result : LoginResult) (h : isLockedOut st now = false)
    (hs : result.success = true) :
    onSubmit st now result =
      { st with failedAttempts := 0, lockoutUntil := none,
                authError := "" } := by
  unfold onSubmit
  rw [h, hs]
  rfl

/-- A failed submission that goes through while the new count stays below
the threshold increments the counter by exactly one and keeps the lockout
timestamp. -/
theorem onSubmit_fail_small (st : ThrottleState) (now : Nat)
    (result : LoginResult) (h : isLockedOut st now = false)
    (hs : result.success = false)
    (hlt : st.failedAttempts + 1 < 5) :
    onSubmit st now result =
      { st with failedAttempts := st.failedAttempts + 1,
                authError :=
                  match result.error with
                  | some e => e
                  | none => "Invalid credentials. Please try again." } := by
  simp only [onSubmit, h, hs, Bool.false_eq_true, if_false]
  rw [if_neg (by omega : ¬ st.failedAttempts + 1 ≥ 5)]

/-- A failed submission that goes through and reaches the threshold sets
the lockout timestamp 30 seconds into the future. -/
theorem onSubmit_fail_big (st : ThrottleState) (now : Nat)
    (result : LoginResult) (h : isLockedOut st now = false)
    (hs : result.success = false)
    (hge : st.failedAttempts + 1 ≥ 5) :
    onSubmit st now result =
      { failedAttempts := st.failedAttempts + 1,
        lockoutUntil := some (now + lockoutDurationMs),
        authError :=
          "Account temporarily locked due to multiple failed attempts. Please wait 30 seconds." } := by
  simp only [onSubmit, h, hs, Bool.false_eq_true, if_false]
  rw [if_pos hge]

/-- The interval callback does nothing when no lockout timestamp is set. -/
theorem tick_no_lockout (st : ThrottleState) (now : Nat)
    (h : st.lockoutUntil = none) : tick st now = st := by
  unfold tick
  rw [h]

/-- The interval callback clears the lockout and the counter once the
timestamp has elapsed. -/
theorem tick_expired (st : ThrottleState) (now tt : Nat)
    (h : st.lockoutUntil = some tt) (hle : tt ≤ now) :
    tick st now =
      { st with lockoutUntil := none, failedAttempts := 0 } := by
  unfold tick
  simp only [h]
  rw [if_pos hle]

/-- The interval callback does nothing while the lockout is active. -/
theorem tick_active (st : ThrottleState) (now tt : Nat)
    (h : st.lockoutUntil = some tt) (hlt : ¬ tt ≤ now) :
    tick st now = st := by
  unfold tick
  simp only [h]
  rw [if_neg hlt]

/-- As long as the count stays below the threshold, failed submissions
leave the lockout timestamp absent and add exactly their number to the
counter. -/
theorem runFails_below_threshold (fails : List (Nat × Option String)) :
    ∀ st : ThrottleState, st.lockoutUntil = none →
      st.failedAttempts + fails.length ≤ 4 →
      (runFails st fails).lockoutUntil = none ∧
      (runFails st fails).failedAttempts =
        st.failedAttempts + fails.length := by
  induction fails with
  | nil => exact fun st h _ => ⟨h, rfl⟩
  | cons p rest ih =>
      intro st h hle
      rw [List.length_cons] at hle
      have hlock : isLockedOut st p.1 = false := by
        unfold isLockedOut
        rw [h]
      have hstep := onSubmit_fail_small st p.1
        { success := false, error := p.2 } hlock rfl (by omega)
      have hrun : runFails st (p :: rest) =
          runFails (onSubmit st p.1 { success := false, error := p.2 })
            rest := rfl
      rw [hrun, hstep]
      obtain ⟨h1, h2⟩ := ih
        { st with failedAttempts := st.failedAttempts + 1,
                  authError :=
                    match p.2 with
                    | some e => e
                    | none => "Invalid credentials. Please try again." }
        h (by show st.failedAttempts + 1 + rest.length ≤ 4; omega)
      refine ⟨h1, ?_⟩
      rw [h2]
      show st.failedAttempts + 1 + rest.length =
        st.failedAttempts + (rest.length + 1)
      omega

/-- Claim C1: from a fresh login screen, after any sequence of at most 4
consecutive failed submissions no lockout timestamp is set and the screen
is not locked out at any time; the 5th consecutive failure, at time `t5`,
sets `lockoutUntil = t5 + 30000` (the at-least comparison fires exactly at
the 5th failure), after which the screen is locked out at a time `t`
exactly when `t` is strictly within 30 seconds of `t5`. -/
theorem five_failures_cause_lockout (fails : List (Nat × Option String))
    (t5 : Nat) (err : Option String) :
    (fails.length ≤ 4 →
      (runFails throttleInit fails).lockoutUntil = none ∧
      ∀ t, isLockedOut (runFails throttleInit fails) t = false) ∧
    (fails.length = 4 →
      (onSubmit (runFails throttleInit fails) t5
        { success := false, error := err }).lockoutUntil =
          some (t5 + lockoutDurationMs) ∧
      (onSubmit (runFails throttleInit fails) t5
        { success := false, error := err }).failedAttempts = 5 ∧
      ∀ t, isLockedOut (onSubmit (runFails throttleInit fails) t5
        { success := false, error := err }) t =
          decide (t < t5 + lockoutDurationMs)) := by
  have h0 : throttleInit.failedAttempts = 0 := rfl
  constructor
  · intro h4
    obtain ⟨h1, _⟩ := runFails_below_threshold fails throttleInit rfl
      (by omega)
    refine ⟨h1, fun t => ?_⟩
    unfold isLockedOut
    rw [h1]
  · intro h4
    obtain ⟨h1, h2⟩ := runFails_below_threshold fails throttleInit rfl
      (by omega)
    have hlock : isLockedOut (runFails throttleInit fails) t5 = false := by
      unfold isLockedOut
      rw [h1]
    have hstep := onSubmit_fail_big (runFails throttleInit fails) t5
      { success := false, error := err } hlock rfl (by omega)
    rw [hstep]
    refine ⟨rfl, ?_, fun t => rfl⟩
    show (runFails throttleInit fails).failedAttempts + 1 = 5
    omega

/-- Concrete instantiation of `five_failures_cause_lockout`: four failures
leave no lockout; the fifth, at time 10, locks until 30010. -/
theorem five_failures_cause_lockout_witness :
    (runFails throttleInit
      [(0, none), (1, none), (2, none), (3, none)]).lockoutUntil = none ∧
    (onSubmit (runFails throttleInit
        [(0, none), (1, none), (2, none), (3, none)]) 10
      { success := false, error := none }).lockoutUntil =
        some (10 + lockoutDurationMs) :=
  ⟨((five_failures_cause_lockout
      [(0, none), (1, none), (2, none), (3, none)] 10 none).1
      (by decide)).1,
   ((five_failures_cause_lockout
      [(0, none), (1, none), (2, none), (3, none)] 10 none).2
      (by decide)).1⟩

/-- Five failed submissions at time 0 followed by a sixth failed
submission at the exact instant the lockout expires (before any interval
callback has fired). -/
def overflowEvents : List ThrottleEvent :=
  [ThrottleEvent.submit 0 { success := false, error := none },
   ThrottleEvent.submit 0 { success := false, error := none },
   ThrottleEvent.submit 0 { success := false, error := none },
   ThrottleEvent.submit 0 { success := false, error := none },
   ThrottleEvent.submit 0 { success := false, error := none },
   ThrottleEvent.submit 30000 { success := false, error := none }]

/-- Claim C9, counterexample: the lockout comparison is strict, so a
failed submission at the exact expiry instant (with the interval callback
not yet fired) is not blocked and pushes the counter to 6; the counter is
therefore not bounded by 5 over reachable states. -/
theorem failed_attempts_can_exceed_five :
    (throttleRun overflowEvents).failedAttempts = 6 ∧
    ¬ (∀ st : ThrottleState, throttleReachable st →
        st.failedAttempts ≤ 5) := by
  refine ⟨by decide, fun hall => ?_⟩
  have h := hall (throttleRun overflowEvents) ⟨overflowEvents, rfl⟩
  have h6 : (throttleRun overflowEvents).failedAttempts = 6 := by decide
  omega

/-- The inductive invariant of the throttle: while no lockout timestamp is
set the counter is at most 4; whenever a lockout timestamp is set the
counter is at least 5. -/
def throttleInv (st : ThrottleState) : Prop :=
  (st.lockoutUntil = none ∧ st.failedAttempts ≤ 4) ∨
  (st.lockoutUntil.isSome = true ∧ 5 ≤ st.failedAttempts)

/-- Every event preserves the throttle invariant. -/
theorem throttleInv_step (st : ThrottleState) (e : ThrottleEvent)
    (h : throttleInv st) : throttleInv (throttleStep st e) := by
  cases e with
  | tick now =>
      show throttleInv (tick st now)
      cases hl : st.lockoutUntil with
      | none => rw [tick_no_lockout st now hl]; exact h
      | some tt =>
          by_cases hle : tt ≤ now
          · rw [tick_expired st now tt hl hle]
            exact Or.inl ⟨rfl, by show (0 : Nat) ≤ 4; decide⟩
          · rw [tick_active st now tt hl hle]
            exact h
  | submit now result =>
      show throttleInv (onSubmit st now result)
      cases hb : isLockedOut st now with
      | true =>
          rw [onSubmit_locked st now result hb]
          exact h
      | false =>
          cases hs : result.success with
          | true =>
              rw [onSubmit_success st now result hb hs]
              exact Or.inl ⟨rfl, by show (0 : Nat) ≤ 4; decide⟩
          | false =>
              by_cases h5 : st.failedAttempts + 1 ≥ 5
              · rw [onSubmit_fail_big st now result hb hs h5]
                exact Or.inr ⟨rfl, by
                  show 5 ≤ st.failedAttempts + 1
                  omega⟩
              · rw [onSubmit_fail_small st now result hb hs (by omega)]
                cases h with
                | inl hleft =>
                    exact Or.inl ⟨hleft.1, by
                      show st.failedAttempts + 1 ≤ 4
                      have := hleft.2
                      omega⟩
                | inr hright =>
                    exact Or.inr ⟨hright.1, by
                      show 5 ≤ st.failedAttempts + 1
                      have := hright.2
                      omega⟩

/-- Every reachable throttle state satisfies the invariant. -/
theorem throttleInv_reachable (st : ThrottleState)
    (h : throttleReachable st) : throttleInv st := by
  obtain ⟨evs, he⟩ := h
  subst he
  unfold throttleRun
  have hgen : ∀ s : ThrottleState, throttleInv s →
      throttleInv (evs.foldl throttleStep s) := by
    induction evs with
    | nil => exact fun s hs => hs
    | cons e rest ih =>
        exact fun s hs => ih (throttleStep s e) (throttleInv_step s e hs)
  exact hgen throttleInit (Or.inl ⟨rfl, by decide⟩)

/-- Claim C9 (amended): a submission while locked out returns before
incrementing the counter or touching the lockout; a success that goes
through and an expired-lockout interval callback both reset the counter to
0; each non-locked failure increments the counter by exactly 1. The
counter is not bounded by 5, because a failed submission can land after
the lockout expiry instant but before the interval callback clears the
state; what holds in every reachable state is: no lockout timestamp set
implies at most 4 failures recorded, and a set lockout timestamp implies
at least 5. -/
theorem throttle_counter_invariant (st : ThrottleState) (now tlock : Nat)
    (result : LoginResult) :
    (throttleReachable st → throttleInv st) ∧
    (isLockedOut st now = true →
      (onSubmit st now result).failedAttempts = st.failedAttempts ∧
      (onSubmit st now result).lockoutUntil = st.lockoutUntil) ∧
    (isLockedOut st now = false → result.success = false →
      (onSubmit st now result).failedAttempts =
        st.failedAttempts + 1) ∧
    (isLockedOut st now = false → result.success = true →
      (onSubmit st now result).failedAttempts = 0 ∧
      (onSubmit st now result).lockoutUntil = none) ∧
    (st.lockoutUntil = some tlock → tlock ≤ now →
      (tick st now).failedAttempts = 0 ∧
      (tick st now).lockoutUntil = none) := by
  refine ⟨throttleInv_reachable st, fun hb => ?_, fun hb hs => ?_,
    fun hb hs => ?_, fun hl hle => ?_⟩
  · rw [onSubmit_locked st now result hb]
    exact ⟨rfl, rfl⟩
  · by_cases h5 : st.failedAttempts + 1 ≥ 5
    · rw [onSubmit_fail_big st now result hb hs h5]
    · rw [onSubmit_fail_small st now result hb hs (by omega)]
  · rw [onSubmit_success st now result hb hs]
    exact ⟨rfl, rfl⟩
  · rw [tick_expired st now tlock hl hle]
    exact ⟨rfl, rfl⟩

/-- Concrete instantiation of `throttle_counter_invariant`: the overflow
trace satisfies the invariant (count 6 with a lockout set), a locked-out
submission leaves the counter unchanged, and an expired tick resets a
locked state. -/
theorem throttle_counter_invariant_witness :
    throttleInv (throttleRun overflowEvents) ∧
    (onSubmit { failedAttempts := 5, lockoutUntil := some 30000,
                authError := "" } 10
       { success := false, error := none }).failedAttempts = 5 ∧
    (tick { failedAttempts := 5, lockoutUntil := some 30000,
            authError := "" } 30000).failedAttempts = 0 :=
  ⟨(throttle_counter_invariant (throttleRun overflowEvents) 0 0
      { success := false, error := none }).1 ⟨overflowEvents, rfl⟩,
   ((throttle_counter_invariant
      { failedAttempts := 5, lockoutUntil := some 30000, authError := "" }
      10 0 { success := false, error := none }).2.1 (by decide)).1,
   ((throttle_counter_invariant
      { failedAttempts := 5, lockoutUntil := some 30000, authError := "" }
      30000 30000 { success := false, error := none }).2.2.2.2 rfl
      (by decide)).1⟩
